import Mathlib

/-!
Verification development for a set of standalone dashboard scripts
(adj.py, test_02.py, test_03.py, test_04.py, test_05.py, saving_fdr.py).

Each script loads a spreadsheet/CSV into a flat table, coerces declared
columns to numeric (`pd.to_numeric(errors='coerce')`, then `fillna(0)` or
`dropna`), aggregates with `groupby(...).sum()` / `nlargest`, and computes
ratio KPIs.  We embed the cleaning, aggregation, ranking and ratio logic
shallowly: numeric cells become `Option ℚ` before cleaning (`none` = NaN)
and `ℚ` afterwards; tables become lists of records; `groupby(...).sum()`
becomes a fold over the deduplicated key list (pandas orders groups by
sorted key, we keep first-occurrence order — the values attached to each
key are identical and none of the proved statements depend on key order
except where the two orders coincide on the concrete input).
-/

namespace Spec2Proof

/-- A spreadsheet cell after `pd.to_numeric(errors='coerce')`:
`none` models NaN (a missing or unparseable value). -/
abbrev RawCell := Option ℚ

/-- `fillna(0)` on one cell. -/
def fillna0 (c : RawCell) : ℚ := c.getD 0

/-- `pd.to_numeric(col, errors='coerce').fillna(0)`: the cleaning applied to
every declared numeric column in adj.py, test_02.py, test_03.py, test_04.py
and test_05.py. -/
def fillnaColumn (col : List RawCell) : List ℚ := col.map fillna0

/-- `dropna` restricted to one column, as in saving_fdr.py's
`df.dropna(subset=['Deposited_Amount', ...])`: rows whose cell is NaN are
dropped, the parsed values of the others are kept in order. -/
def dropnaColumn (col : List RawCell) : List ℚ := col.filterMap id

/-- Unguarded pandas float division `x / y` as it appears in adj.py lines
42-43 and 53: when the denominator is zero the float result is NaN or ±inf,
i.e. mathematically undefined, modelled as `none`. -/
def pdDiv (x y : ℚ) : Option ℚ := if y = 0 then none else some (x / y)

/-- test_05.py's `num.div(den.replace(0, np.nan)).fillna(0).clip(upper=1)`
applied cellwise: a zero denominator yields NaN, replaced by 0; otherwise
the quotient, clipped from above at 1. -/
def divFillClip (num den : ℚ) : ℚ := if den = 0 then 0 else min (num / den) 1

/-- `df.groupby(key)[amt].sum()`: one `(group key, total)` pair per distinct
key, keys in first-occurrence order, each total the sum of `amt` over the
rows carrying that key. -/
def groupbySum {ρ κ : Type} [DecidableEq κ] (key : ρ → κ) (amt : ρ → ℚ)
    (rows : List ρ) : List (κ × ℚ) :=
  ((rows.map key).dedup).map
    (fun k => (k, ((rows.filter (fun r => key r = k)).map amt).sum))

/-- Number of distinct groups of `rows` under `key`. -/
def numGroups {ρ κ : Type} [DecidableEq κ] (key : ρ → κ) (rows : List ρ) : ℕ :=
  ((rows.map key).dedup).length

/-- Insert `a` into a list kept in descending `key` order (stable: `a` goes
after earlier elements with an equal key, matching `nlargest(keep='first')`). -/
def insertDesc {α : Type} (key : α → ℚ) (a : α) : List α → List α
  | [] => [a]
  | b :: l => if key b < key a then a :: b :: l else b :: insertDesc key a l

/-- Stable sort in descending `key` order. -/
def sortDesc {α : Type} (key : α → ℚ) : List α → List α
  | [] => []
  | a :: l => insertDesc key a (sortDesc key l)

/-- `df.nlargest(n, col)`: the rows in descending `col` order, truncated to
the first `n` (all rows when fewer than `n` exist). -/
def nlargest {α : Type} (n : ℕ) (key : α → ℚ) (rows : List α) : List α :=
  (sortDesc key rows).take n

/-- Pandas `Series.idxmax` together with the value: first index attaining
the maximum, `none` on an empty series (where pandas raises). -/
def idxmaxAux {κ : Type} : List (κ × ℚ) → Option (κ × ℚ)
  | [] => none
  | p :: l =>
    match idxmaxAux l with
    | none => some p
    | some q => if q.2 > p.2 then some q else some p

/-- Pandas `Series.idxmax`: key of the first maximal entry, `none` on an
empty series. -/
def idxmax {κ : Type} (l : List (κ × ℚ)) : Option κ := (idxmaxAux l).map Prod.fst

/-! ### adj.py -/

/-- A row of `ADJ_NOV_2025.xlsx` after the column rename but before the
numeric coercion of adj.py's `load_data` (lines 22-26). -/
structure AdjRawRow where
  divisional : String
  zone : String
  regions : String
  branch : String
  numberOfMember : RawCell
  adjustmentPrincipleAmount : RawCell
  adjustmentServiceCharge : RawCell
  adjustmentTotal : RawCell
deriving DecidableEq

/-- A cleaned adj.py row: every numeric column holds a number. -/
structure AdjRow where
  divisional : String
  zone : String
  regions : String
  branch : String
  numberOfMember : ℚ
  adjustmentPrincipleAmount : ℚ
  adjustmentServiceCharge : ℚ
  adjustmentTotal : ℚ
deriving DecidableEq

/-- adj.py `load_data` lines 25-26 on one row:
`df[num_cols].apply(pd.to_numeric, errors='coerce')` then `df.fillna(0)`. -/
def adj_clean_row (r : AdjRawRow) : AdjRow :=
  { divisional := r.divisional
    zone := r.zone
    regions := r.regions
    branch := r.branch
    numberOfMember := fillna0 r.numberOfMember
    adjustmentPrincipleAmount := fillna0 r.adjustmentPrincipleAmount
    adjustmentServiceCharge := fillna0 r.adjustmentServiceCharge
    adjustmentTotal := fillna0 r.adjustmentTotal }

/-- adj.py `load_data`. -/
def adj_load_data (raw : List AdjRawRow) : List AdjRow := raw.map adj_clean_row

/-- adj.py line 32: `total_branches = len(df)`. -/
def adj_total_branches (df : List AdjRow) : ℚ := (df.length : ℚ)

/-- adj.py line 33: `total_members = df['Number_Of_Member'].sum()`. -/
def adj_total_members (df : List AdjRow) : ℚ := (df.map (·.numberOfMember)).sum

/-- adj.py line 34. -/
def adj_total_principal (df : List AdjRow) : ℚ :=
  (df.map (·.adjustmentPrincipleAmount)).sum

/-- adj.py line 35. -/
def adj_total_service (df : List AdjRow) : ℚ :=
  (df.map (·.adjustmentServiceCharge)).sum

/-- adj.py line 36: `grand_total = df['Adjustment_Total'].sum()`. -/
def adj_grand_total (df : List AdjRow) : ℚ := (df.map (·.adjustmentTotal)).sum

/-- adj.py line 42: `avg_per_member = grand_total / total_members` — an
unguarded division. -/
def avg_per_member (df : List AdjRow) : Option ℚ :=
  pdDiv (adj_grand_total df) (adj_total_members df)

/-- adj.py line 43: `avg_per_branch = grand_total / total_branches` — an
unguarded division. -/
def avg_per_branch (df : List AdjRow) : Option ℚ :=
  pdDiv (adj_grand_total df) (adj_total_branches df)

/-- adj.py lines 46-51, restricted to the `Adjustment_Total` aggregate:
`df.groupby('Divisional').agg({'Adjustment_Total': 'sum'})`. -/
def div_summary_total (df : List AdjRow) : List (String × ℚ) :=
  groupbySum (·.divisional) (·.adjustmentTotal) df

/-- adj.py lines 46-51, restricted to the `Number_Of_Member` aggregate. -/
def div_summary_members (df : List AdjRow) : List (String × ℚ) :=
  groupbySum (·.divisional) (·.numberOfMember) df

/-- adj.py line 191: `top20 = df.nlargest(20, 'Adjustment_Total')`. -/
def top20 (df : List AdjRow) : List AdjRow :=
  nlargest 20 (·.adjustmentTotal) df

/-! ### test_03.py -/

/-- A cleaned row of `1025.csv` (test_03.py): after `load_data` every
declared numeric column holds a number and the categorical columns are
strings. -/
structure T3Row where
  domain : String
  zone : String
  region : String
  branchName : String
  noOfSamity : ℚ
  noOfMembers : ℚ
  noOfBorrower : ℚ
  sepMonthLoan : ℚ
  loanOutstandingPrincipal : ℚ
  totalOverdue : ℚ
  totalOutstanding : ℚ
  totalSavingsBalance : ℚ
  gs : ℚ
  ss : ℚ
  tss : ℚ
  tdmb : ℚ
  loanServiceCharge : ℚ
  overdueServiceCharge : ℚ
  overduePrincipal : ℚ
deriving DecidableEq

/-- test_03.py line 140 / 182. -/
def t3_total_members (df : List T3Row) : ℚ := (df.map (·.noOfMembers)).sum

/-- test_03.py line 141 / 183. -/
def t3_total_borrowers (df : List T3Row) : ℚ := (df.map (·.noOfBorrower)).sum

/-- test_03.py line 142 / 184: `df["SEP_2025_ Month_Loan"].sum()`. -/
def t3_total_loan_month (df : List T3Row) : ℚ := (df.map (·.sepMonthLoan)).sum

/-- test_03.py line 143 / 185. -/
def t3_total_outstanding (df : List T3Row) : ℚ := (df.map (·.totalOutstanding)).sum

/-- test_03.py line 144 / 186. -/
def t3_total_overdue (df : List T3Row) : ℚ := (df.map (·.totalOverdue)).sum

/-- test_03.py line 147 / 187. -/
def t3_total_savings (df : List T3Row) : ℚ := (df.map (·.totalSavingsBalance)).sum

/-- test_03.py line 145 / 193:
`avg_loan_per_member = total_loan_month / total_members if total_members > 0 else 0`. -/
def avg_loan_per_member (df : List T3Row) : ℚ :=
  if t3_total_members df > 0 then t3_total_loan_month df / t3_total_members df else 0

/-- test_03.py line 146 / 194 (a percentage):
`(total_overdue / total_outstanding) * 100 if total_outstanding > 0 else 0`. -/
def avg_overdue_ratio_pct (df : List T3Row) : ℚ :=
  if t3_total_outstanding df > 0 then
    t3_total_overdue df / t3_total_outstanding df * 100
  else 0

/-- The `Overdue_Ratio` column of test_03.py's `zone_summary` (lines
874-891) and of `zone_risk` (lines 160-161 / 196-197): group by `Zone`,
sum `Total_Overdue` and `Total_Outstanding`, then per zone
`(overdue / outstanding) * 100 if outstanding > 0 else 0`. -/
def zone_summary_ratios (df : List T3Row) : List (String × ℚ) :=
  ((df.map (·.zone)).dedup).map (fun z =>
    (z,
      let od := ((df.filter (fun r => r.zone = z)).map (·.totalOverdue)).sum
      let os := ((df.filter (fun r => r.zone = z)).map (·.totalOutstanding)).sum
      if os > 0 then od / os * 100 else 0))

/-- test_03.py lines 815-820 (by `Domain`) and 822-827 (by `Zone`): group,
sum `Loan_Outstanding_Principal` and `SEP_2025_ Month_Loan`, then per group
`outstanding / loan if loan > 0 else 0` — a zero-guarded ratio. -/
def outstanding_loan_ratios (kf : T3Row → String) (df : List T3Row) :
    List (String × ℚ) :=
  ((df.map kf).dedup).map (fun k =>
    (k,
      let op := ((df.filter (fun r => kf r = k)).map (·.loanOutstandingPrincipal)).sum
      let ml := ((df.filter (fun r => kf r = k)).map (·.sepMonthLoan)).sum
      if ml > 0 then op / ml else 0))

/-- test_03.py line 162 / 198: number of zones whose overdue ratio exceeds
10 percent. -/
def high_risk_zones (df : List T3Row) : ℕ :=
  ((zone_summary_ratios df).filter (fun p => p.2 > 10)).length

/-- test_03.py line 163 / 199:
`df.groupby("Zone")["SEP_2025_ Month_Loan"].sum().idxmax()` — `none` models
the exception pandas raises on an empty frame. -/
def top_zone_loan (df : List T3Row) : Option String :=
  idxmax (groupbySum (fun r => r.zone) (fun r => r.sepMonthLoan) df)

/-- test_03.py lines 175-178: keep the rows whose `Domain` and `Zone` are
among the sidebar selections (`isin` on both, conjoined). -/
def t3_filter (doms zones : List String) (df : List T3Row) : List T3Row :=
  df.filter (fun r => doms.contains r.domain && zones.contains r.zone)

/-- test_03.py lines 772-774: `filtered_df.groupby("Branch Name")
["SEP_2025_ Month_Loan"].sum()` feeding `nlargest(25, ...)`. -/
def branch_loan_ranking (df : List T3Row) : List (String × ℚ) :=
  groupbySum (fun r => r.branchName) (fun r => r.sepMonthLoan) df

/-- The KPI block recomputed in test_03.py lines 181-206. -/
structure T3Kpis where
  totalMembers : ℚ
  totalBorrowers : ℚ
  totalLoanMonth : ℚ
  totalOutstanding : ℚ
  totalOverdue : ℚ
  totalSavings : ℚ
  totalGs : ℚ
  totalSs : ℚ
  totalTss : ℚ
  totalTdmb : ℚ
  avgLoanPerMember : ℚ
  avgOverdueRatioPct : ℚ
  highRiskZones : ℕ
  topZoneLoan : String
deriving DecidableEq

/-- The `else` branch of test_03.py lines 200-206: every KPI zero and
`top_zone_loan = "N/A"`. -/
def t3_zero_kpis : T3Kpis :=
  { totalMembers := 0, totalBorrowers := 0, totalLoanMonth := 0
    totalOutstanding := 0, totalOverdue := 0, totalSavings := 0
    totalGs := 0, totalSs := 0, totalTss := 0, totalTdmb := 0
    avgLoanPerMember := 0, avgOverdueRatioPct := 0
    highRiskZones := 0, topZoneLoan := "N/A" }

/-- test_03.py lines 181-206: recompute the KPI block from the filtered
frame.  A nonempty frame evaluates `idxmax` over the zone loan totals —
were that series empty pandas would raise, modelled by `Except.error`;
an empty frame takes the `else` branch and touches no aggregate. -/
def recompute_kpis (filtered : List T3Row) : Except String T3Kpis :=
  if filtered.isEmpty then .ok t3_zero_kpis
  else
    match top_zone_loan filtered with
    | none => .error "attempt to get argmax of an empty sequence"
    | some tz =>
      .ok { totalMembers := t3_total_members filtered
            totalBorrowers := t3_total_borrowers filtered
            totalLoanMonth := t3_total_loan_month filtered
            totalOutstanding := t3_total_outstanding filtered
            totalOverdue := t3_total_overdue filtered
            totalSavings := t3_total_savings filtered
            totalGs := (filtered.map (·.gs)).sum
            totalSs := (filtered.map (·.ss)).sum
            totalTss := (filtered.map (·.tss)).sum
            totalTdmb := (filtered.map (·.tdmb)).sum
            avgLoanPerMember := avg_loan_per_member filtered
            avgOverdueRatioPct := avg_overdue_ratio_pct filtered
            highRiskZones := high_risk_zones filtered
            topZoneLoan := tz }

/-! ### test_05.py -/

/-- A cleaned row of `Pomis_Summary_Report_Oct_2025.xlsx` (test_05.py):
after `load_data`'s cleaning loop every listed column holds a number. -/
structure T5Row where
  branchName : String
  newMemberAdmission : ℚ
  memberCancellation : ℚ
  loanDisbursementBorrower : ℚ
  fullyPaidBorrower : ℚ
  loanRecoverable : ℚ
  loanRecoveredRegular : ℚ
  loanRecoveredDue : ℚ
  newDueAmount : ℚ
  octTotalDue : ℚ
  totalDueLoanee : ℚ
  badLoan365 : ℚ
  totalOutstanding : ℚ
  overdueLoanOutstanding : ℚ
  cummulativeLoanDisbursement : ℚ
  cummulativeLoanCollection : ℚ
deriving DecidableEq

/-- test_05.py line 47: `df['Overdue_Percent_Branch'] =
df['Overdue_Loan_Outstanding'].div(df['Total_Outstanding'].replace(0, np.nan))
.fillna(0).clip(upper=1)`. -/
def overdue_percent_branch (r : T5Row) : ℚ :=
  divFillClip r.overdueLoanOutstanding r.totalOutstanding

/-- test_05.py lines 52-54: `Collection_Efficiency_Ratio`. -/
def collection_efficiency (r : T5Row) : ℚ :=
  divFillClip r.cummulativeLoanCollection r.cummulativeLoanDisbursement

/-- test_05.py lines 56-58: `Bad_Loan_Conversion_Rate`. -/
def bad_loan_conversion_rate (r : T5Row) : ℚ :=
  divFillClip r.badLoan365 r.overdueLoanOutstanding

/-- test_05.py lines 285-301 (`plot_risk_composition_3d_pie`): the three
pie amounts — healthy outstanding, overdue-not-bad, bad loan — with each
negative intermediate clamped to zero. -/
def risk_composition (df : List T5Row) : ℚ × ℚ × ℚ :=
  let totalOutstanding := (df.map (·.totalOutstanding)).sum
  let overdueSum := (df.map (·.overdueLoanOutstanding)).sum
  let badLoan := (df.map (·.badLoan365)).sum
  let healthySum := totalOutstanding - overdueSum
  let overdueNotBad := overdueSum - badLoan
  (if healthySum < 0 then 0 else healthySum,
   if overdueNotBad < 0 then 0 else overdueNotBad,
   if badLoan < 0 then 0 else badLoan)

/-! ### test_02.py -/

/-- A row of `loandisbursereport-sep_2025.xlsx` restricted to the grouping
key and the monetary columns test_02.py cleans (lines 63-66), before the
numeric coercion. -/
structure T2RawRow where
  divisionalOffice : String
  loanAmount : RawCell
  outstandingPr : RawCell
  insuranceAmount : RawCell
  dueAmountPr : RawCell
deriving DecidableEq

/-- A cleaned test_02.py row: every monetary column holds a number. -/
structure T2Row where
  divisionalOffice : String
  loanAmount : ℚ
  outstandingPr : ℚ
  insuranceAmount : ℚ
  dueAmountPr : ℚ
deriving DecidableEq

/-- test_02.py lines 63-66 on one row:
`pd.to_numeric(df[col], errors='coerce').fillna(0)` per monetary column. -/
def t2_clean_row (r : T2RawRow) : T2Row :=
  { divisionalOffice := r.divisionalOffice
    loanAmount := fillna0 r.loanAmount
    outstandingPr := fillna0 r.outstandingPr
    insuranceAmount := fillna0 r.insuranceAmount
    dueAmountPr := fillna0 r.dueAmountPr }

/-- test_02.py `load_data`, restricted to the cleaning of the monetary
columns. -/
def t2_load_data (raw : List T2RawRow) : List T2Row := raw.map t2_clean_row

/-- test_02.py line 126: `sum_loan_amount = df_selection.Loan_Amount.sum()`. -/
def sum_loan_amount (df : List T2Row) : ℚ := (df.map (·.loanAmount)).sum

/-- The outstanding-principal grand total of test_02.py's frame. -/
def sum_outstanding_pr (df : List T2Row) : ℚ := (df.map (·.outstandingPr)).sum

/-- The insurance-amount grand total (test_02.py line 464 aggregates it). -/
def sum_insurance_amount (df : List T2Row) : ℚ := (df.map (·.insuranceAmount)).sum

/-- The due-principal grand total (test_02.py line 203 aggregates it). -/
def sum_due_amount_pr (df : List T2Row) : ℚ := (df.map (·.dueAmountPr)).sum

/-- test_02.py line 178: `groupby('Divisional_Office')[['Loan_Amount', ...]]
.sum()`, the `Loan_Amount` aggregate. -/
def office_summary_loan (df : List T2Row) : List (String × ℚ) :=
  groupbySum (·.divisionalOffice) (·.loanAmount) df

/-- test_02.py line 178, the `Outstanding_Pr` aggregate. -/
def office_summary_outstanding (df : List T2Row) : List (String × ℚ) :=
  groupbySum (·.divisionalOffice) (·.outstandingPr) df

/-! ### saving_fdr.py -/

/-- A row of `FDR_Sep_2025.csv` restricted to what the deposit sums use:
the zone, the `Deposited_Amount` cell before coercion, and whether both
date columns parse (`FDR_Opening_Date`, `Mature_Date`; saving_fdr.py drops
the row otherwise). -/
structure FdrRawRow where
  zone : String
  depositedAmount : RawCell
  datesOk : Bool
deriving DecidableEq

/-- A cleaned saving_fdr.py row. -/
structure FdrRow where
  zone : String
  depositedAmount : ℚ
deriving DecidableEq

/-- saving_fdr.py lines 35-47: coerce `Deposited_Amount`, drop every row
whose amount or dates fail to parse; kept rows carry the parsed amount. -/
def fdr_load_data (raw : List FdrRawRow) : List FdrRow :=
  raw.filterMap (fun r =>
    match r.depositedAmount, r.datesOk with
    | some q, true => some { zone := r.zone, depositedAmount := q }
    | _, _ => none)

/-- saving_fdr.py line 80: `total_deposited_amount =
df_full['Deposited_Amount'].sum()`. -/
def total_deposited_amount (df : List FdrRow) : ℚ :=
  (df.map (·.depositedAmount)).sum

/-- saving_fdr.py line 134: `df_full.groupby('Zone')['Deposited_Amount']
.sum()`. -/
def df_zone (df : List FdrRow) : List (String × ℚ) :=
  groupbySum (·.zone) (·.depositedAmount) df

/-! ### Column handling in the loaders (test_03.py / test_05.py)

test_03.py's `load_data` walks a list of declared numeric columns: a column
present in the CSV is coerced and NaN-filled, a column absent from the CSV
is *created*, filled with zeros (lines 99-108).  The subsequent required-
columns check (lines 124-137) therefore can only fail on the four
categorical columns.  test_05.py's `load_data` (lines 35-41) does the same
creation and has no column check at all.  We model a loaded file by its
list of column headers. -/

/-- test_03.py lines 99-102: the numeric columns coerced or created. -/
def t3_numeric_cols : List String :=
  ["Loan_Service_Charge", "Overdue_Service_Charge", "Overdue_Principal",
   "No_of_Samity", "No_of_Members", "No_of_Borrower",
   "Total_Outstanding", "Total_Overdue", "Total_Savings_Balance",
   "SEP_2025_ Month_Loan", "Loan_Outstanding_Principal",
   "GS", "SS", "TSS", "TDMB"]

/-- The columns of the frame returned by test_03.py's `load_data`:
the file's own columns plus every declared numeric column that was absent,
created zero-filled (`df[col] = 0`, line 108). -/
def t3_cols_after_load (cols : List String) : List String :=
  cols ++ t3_numeric_cols.filter (fun c => !(cols.contains c))

/-- test_03.py lines 124-130: `required_columns`. -/
def t3_required_cols : List String :=
  ["Domain", "Zone", "Region", "Branch Name", "No_of_Samity", "No_of_Members",
   "No_of_Borrower", "SEP_2025_ Month_Loan", "Loan_Outstanding_Principal",
   "Total_Overdue", "Total_Outstanding", "Total_Savings_Balance",
   "GS", "SS", "TSS", "TDMB", "Loan_Service_Charge", "Overdue_Service_Charge",
   "Overdue_Principal"]

/-- test_03.py line 132: `missing_columns`, computed on the frame returned
by `load_data`. -/
def t3_missing_columns (cols : List String) : List String :=
  t3_required_cols.filter (fun c => !((t3_cols_after_load cols).contains c))

/-- test_03.py lines 133-137: the script halts (`st.error` + `st.stop`)
iff `missing_columns` is nonempty. -/
def t3_halts (cols : List String) : Bool :=
  !(t3_missing_columns cols).isEmpty

/-- The required columns that test_03.py's `load_data` does not create. -/
def t3_categorical_required : List String :=
  ["Domain", "Zone", "Region", "Branch Name"]

/-- A whole run of test_03.py over a file modelled by its column headers;
`none` is an absent file (`FileNotFoundError`, lines 111-113, after which
`st.stop` at line 121 halts).  `true` means the script proceeds to render. -/
def t3_run (input : Option (List String)) : Bool :=
  match input with
  | none => false
  | some cols => !(t3_halts cols)

/-- test_02.py lines 55-78: the columns its `load_data` touches without a
membership guard; a missing one raises `KeyError`, caught by the generic
handler (lines 84-86), which reports the error and stops. -/
def t2_loader_cols : List String :=
  ["Disbursment_Date", "First_Repayment_Date", "Loan_Amount", "Outstanding_Pr",
   "Insurance_Amount", "Due_Amount_Pr", "Sc_Rate", "No_Of_Installment",
   "Borrower_Age", "Loan_Cycle"]

/-- A run of test_02.py over a file modelled by its column headers: an
absent file is caught at lines 81-83 (`st.error` + `st.stop`), any missing
loader column raises and is caught at lines 84-86 (`st.error` + `st.stop`);
otherwise rendering proceeds. -/
def t2_run (input : Option (List String)) : Bool :=
  match input with
  | none => false
  | some cols => t2_loader_cols.all (fun c => cols.contains c)

/-- A run of test_05.py's loader: an absent file halts (`st.error` +
`st.stop`, lines 18-23); a present file always proceeds, since every
declared numeric column is created when absent (lines 35-41). -/
def t5_run (input : Option (List String)) : Bool :=
  match input with
  | none => false
  | some _ => true

/-- A run of adj.py: line 14 reads the workbook with no handler, so an
absent file raises an uncaught exception and nothing renders; line 17's
positional rename then requires exactly eight columns. -/
def adj_run (input : Option (List String)) : Bool :=
  match input with
  | none => false
  | some cols => decide (cols.length = 8)

/-- The two columns test_04.py's `load_data` (lines 48-76) reads without a
membership guard (its numeric columns are guarded by `if col in df.columns`). -/
def t4_loader_cols : List String := ["Disbursment_Date", "Admission_Date"]

/-- A run of test_04.py: its `load_data` catches every exception (absent
file or missing date column), reports the error and returns an empty frame,
on which line 83 stops; otherwise rendering proceeds. -/
def t4_run (input : Option (List String)) : Bool :=
  match input with
  | none => false
  | some cols => t4_loader_cols.all (fun c => cols.contains c)

/-- The three columns saving_fdr.py's `load_data` (lines 35-47) reads
without a membership guard. -/
def fdr_loader_cols : List String :=
  ["Deposited_Amount", "FDR_Opening_Date", "Mature_Date"]

/-- A run of saving_fdr.py: an absent file is caught (lines 27-29), an
empty frame is returned and line 70 stops; a missing unguarded column
raises out of the loader, halting the render; otherwise rendering
proceeds. -/
def fdr_run (input : Option (List String)) : Bool :=
  match input with
  | none => false
  | some cols => fdr_loader_cols.all (fun c => cols.contains c)

/-- test_05.py lines 27-33: `cols_to_clean`. -/
def t5_cols_to_clean : List String :=
  ["New_Member_Admission_Oct", "Member_Cancellation_Oct",
   "Loan_Disbursement_Borrower_Oct", "Fully_Paid_Borrower_Oct",
   "Loan_Recoverable_Oct", "Loan_Recovered_Regular_Oct",
   "Loan_Recovered_Due_Oct", "New_Due_Amount_Oct", "Oct_Total Due",
   "Total_Due_Loanee", "Bad_Loan_365+", "Total_Outstanding",
   "Overdue_Loan_Outstanding", "Cummulative_Loan_Disbursement",
   "Cummulative_Loan_Collection"]

/-- The columns of the frame returned by test_05.py's `load_data`
(lines 35-41): absent declared columns are created zero-filled. -/
def t5_cols_after_load (cols : List String) : List String :=
  cols ++ t5_cols_to_clean.filter (fun c => !(cols.contains c))

/-! ### Concrete datasets used to instantiate the statements -/

/-- A test_03 row with the given identifiers and the three amounts the
statements below vary; every other numeric column is zero. -/
def mkT3Row (dom zon branch : String) (loan overdue outstanding : ℚ) : T3Row :=
  { domain := dom, zone := zon, region := "R", branchName := branch,
    noOfSamity := 0, noOfMembers := 0, noOfBorrower := 0,
    sepMonthLoan := loan, loanOutstandingPrincipal := 0,
    totalOverdue := overdue, totalOutstanding := outstanding,
    totalSavingsBalance := 0, gs := 0, ss := 0, tss := 0, tdmb := 0,
    loanServiceCharge := 0, overdueServiceCharge := 0, overduePrincipal := 0 }

/-- Two branches: A with amount rows 100 and 200, B with one row 50. -/
def c8df : List T3Row :=
  [mkT3Row "D" "Z" "A" 100 0 0, mkT3Row "D" "Z" "A" 200 0 0,
   mkT3Row "D" "Z" "B" 50 0 0]

/-- One zone whose overdue sum (200) exceeds its outstanding sum (100);
numerator and denominator are non-negative and the denominator passes the
`> 0` zero-guard. -/
def c2df : List T3Row := [mkT3Row "D" "Z" "B" 0 200 100]

/-- A CSV carrying the four categorical columns and none of the declared
numeric columns. -/
def c3cols : List String := ["Domain", "Zone", "Region", "Branch Name"]

/-- A single test_03 row used to build an empty filter selection. -/
def t3SampleRow : T3Row := mkT3Row "D" "Z" "B" 1 0 0

/-- A test_05 row with every amount zero. -/
def t5ZeroRow : T5Row :=
  { branchName := "B",
    newMemberAdmission := 0, memberCancellation := 0,
    loanDisbursementBorrower := 0, fullyPaidBorrower := 0,
    loanRecoverable := 0, loanRecoveredRegular := 0,
    loanRecoveredDue := 0, newDueAmount := 0,
    octTotalDue := 0, totalDueLoanee := 0,
    badLoan365 := 0, totalOutstanding := 0, overdueLoanOutstanding := 0,
    cummulativeLoanDisbursement := 0, cummulativeLoanCollection := 0 }

/-- A test_03 row all of whose amounts are zero (every ratio denominator
vanishes). -/
def t3AllZeroRow : T3Row := mkT3Row "D" "Z" "B" 0 0 0

/-- A raw test_02 row whose cells parse to non-negative numbers or are
missing. -/
def t2PosRow : T2RawRow :=
  { divisionalOffice := "O1", loanAmount := some 100,
    outstandingPr := some 40, insuranceAmount := none, dueAmountPr := some 0 }

/-- A raw saving_fdr row with a non-negative parsed deposit and parseable
dates. -/
def fdrPosRow : FdrRawRow :=
  { zone := "Z1", depositedAmount := some 7, datesOk := true }

/-- A raw adj.py row whose adjustment amounts parse to negative numbers
(the cleaning step keeps them). -/
def adjNegRow : AdjRawRow :=
  { divisional := "D1", zone := "Z1", regions := "R1", branch := "B1",
    numberOfMember := some 10, adjustmentPrincipleAmount := some (-5),
    adjustmentServiceCharge := some 0, adjustmentTotal := some (-5) }

/-- A raw adj.py row whose cells parse to non-negative numbers or are
missing. -/
def adjPosRow : AdjRawRow :=
  { divisional := "D1", zone := "Z1", regions := "R1", branch := "B1",
    numberOfMember := some 2, adjustmentPrincipleAmount := none,
    adjustmentServiceCharge := some 1, adjustmentTotal := some 3 }

/-! ### Lemmas about the ranking primitive -/

/-- Descending order of a list under `key`. -/
def SortedDescBy {α : Type} (key : α → ℚ) (l : List α) : Prop :=
  l.Pairwise (fun a b => key b ≤ key a)

theorem length_insertDesc {α : Type} (key : α → ℚ) (a : α) (l : List α) :
    (insertDesc key a l).length = l.length + 1 := by
  induction l with
  | nil => rfl
  | cons b l ih =>
    simp only [insertDesc]
    split
    · simp
    · simp [ih]

theorem length_sortDesc {α : Type} (key : α → ℚ) (l : List α) :
    (sortDesc key l).length = l.length := by
  induction l with
  | nil => rfl
  | cons a l ih => simp [sortDesc, length_insertDesc, ih]

theorem mem_insertDesc {α : Type} (key : α → ℚ) (a x : α) (l : List α) :
    x ∈ insertDesc key a l ↔ x = a ∨ x ∈ l := by
  induction l with
  | nil => simp [insertDesc]
  | cons b l ih =>
    simp only [insertDesc]
    split
    · simp [List.mem_cons]
    · simp only [List.mem_cons, ih]
      tauto

theorem sortedDescBy_insertDesc {α : Type} (key : α → ℚ) (a : α) {l : List α}
    (h : SortedDescBy key l) : SortedDescBy key (insertDesc key a l) := by
  induction l with
  | nil => simp [insertDesc, SortedDescBy]
  | cons b l ih =>
    rw [SortedDescBy, List.pairwise_cons] at h
    obtain ⟨hb, hl⟩ := h
    simp only [insertDesc]
    split
    · rename_i hba
      refine List.Pairwise.cons ?_ (List.Pairwise.cons hb hl)
      intro x hx
      rcases List.mem_cons.mp hx with rfl | hx
      · exact le_of_lt hba
      · exact le_trans (hb x hx) (le_of_lt hba)
    · rename_i hba
      refine List.Pairwise.cons ?_ (ih hl)
      intro x hx
      rcases (mem_insertDesc key a x l).mp hx with rfl | hx
      · exact le_of_not_lt hba
      · exact hb x hx

theorem sortedDescBy_sortDesc {α : Type} (key : α → ℚ) (l : List α) :
    SortedDescBy key (sortDesc key l) := by
  induction l with
  | nil => exact List.Pairwise.nil
  | cons a l ih => exact sortedDescBy_insertDesc key a ih

/-! ### Lemmas about grouped summation -/

theorem filter_eq_of_ne {ρ κ : Type} [DecidableEq κ] (key : ρ → κ)
    {k k' : κ} (hne : k' ≠ k) (rows : List ρ) :
    (rows.filter (fun r => !(decide (key r = k)))).filter (fun r => key r = k')
      = rows.filter (fun r => key r = k') := by
  rw [List.filter_filter]
  apply List.filter_congr
  intro r _
  by_cases h : key r = k'
  · have : key r ≠ k := h ▸ hne
    simp [h, this, hne]
  · simp [h]

/-- Summing group-by-group over a duplicate-free list of keys covering every
row reproduces the sum over all rows. -/
theorem sum_over_groups {ρ κ : Type} [DecidableEq κ] (key : ρ → κ) (amt : ρ → ℚ) :
    ∀ (ks : List κ) (rows : List ρ), ks.Nodup → (∀ r ∈ rows, key r ∈ ks) →
      (ks.map (fun k => ((rows.filter (fun r => key r = k)).map amt).sum)).sum
        = (rows.map amt).sum := by
  intro ks
  induction ks with
  | nil =>
    intro rows _ hcov
    cases rows with
    | nil => simp
    | cons r l => exact absurd (hcov r (List.mem_cons_self r l)) (List.not_mem_nil _)
  | cons k ks ih =>
    intro rows hnd hcov
    obtain ⟨hk, hnd'⟩ := List.nodup_cons.mp hnd
    have hperm : List.Perm (rows.filter (fun r => key r = k)
        ++ rows.filter (fun r => !(decide (key r = k)))) rows :=
      List.filter_append_perm _ rows
    have hsum : ((rows.filter (fun r => key r = k)).map amt).sum
        + ((rows.filter (fun r => !(decide (key r = k)))).map amt).sum
        = (rows.map amt).sum := by
      have := (hperm.map amt).sum_eq
      simpa [List.map_append, List.sum_append] using this
    have htail : (ks.map (fun k' =>
        ((rows.filter (fun r => key r = k')).map amt).sum)).sum
        = (((rows.filter (fun r => !(decide (key r = k)))).map amt)).sum := by
      have hmapeq : ks.map (fun k' =>
          ((rows.filter (fun r => key r = k')).map amt).sum)
          = ks.map (fun k' =>
          (((rows.filter (fun r => !(decide (key r = k)))).filter
            (fun r => key r = k')).map amt).sum) := by
        apply List.map_congr_left
        intro k' hk'
        have hne : k' ≠ k := fun h => hk (h ▸ hk')
        rw [filter_eq_of_ne key hne]
      rw [hmapeq]
      apply ih _ hnd'
      intro r hr
      obtain ⟨hrrows, hrk⟩ := List.mem_filter.mp hr
      have hne : key r ≠ k := by simpa using hrk
      rcases List.mem_cons.mp (hcov r hrrows) with h | h
      · exact absurd h hne
      · exact h
    calc (((k :: ks).map (fun k' =>
          ((rows.filter (fun r => key r = k')).map amt).sum)).sum)
        = ((rows.filter (fun r => key r = k)).map amt).sum
          + (ks.map (fun k' =>
            ((rows.filter (fun r => key r = k')).map amt).sum)).sum := by
          simp
      _ = ((rows.filter (fun r => key r = k)).map amt).sum
          + (((rows.filter (fun r => !(decide (key r = k)))).map amt)).sum := by
          rw [htail]
      _ = (rows.map amt).sum := hsum

/-- Each entry of `groupbySum` carries the sum of `amt` over exactly the
rows of its group. -/
theorem groupbySum_entry {ρ κ : Type} [DecidableEq κ] (key : ρ → κ)
    (amt : ρ → ℚ) (rows : List ρ) {p : κ × ℚ} (hp : p ∈ groupbySum key amt rows) :
    p.2 = ((rows.filter (fun r => key r = p.1)).map amt).sum := by
  simp only [groupbySum, List.mem_map] at hp
  obtain ⟨k, _, rfl⟩ := hp
  rfl

/-- The group totals of `groupbySum` add up to the grand total. -/
theorem groupbySum_total {ρ κ : Type} [DecidableEq κ] (key : ρ → κ)
    (amt : ρ → ℚ) (rows : List ρ) :
    ((groupbySum key amt rows).map Prod.snd).sum = (rows.map amt).sum := by
  rw [groupbySum, List.map_map]
  exact sum_over_groups key amt _ rows (List.nodup_dedup _)
    (fun r hr => List.mem_dedup.mpr (List.mem_map_of_mem key hr))

/-- A mapped sum over pointwise non-negative values is non-negative. -/
theorem sum_map_nonneg {ρ : Type} (f : ρ → ℚ) (l : List ρ)
    (h : ∀ r ∈ l, 0 ≤ f r) : 0 ≤ (l.map f).sum := by
  apply List.sum_nonneg
  intro x hx
  obtain ⟨r, hr, rfl⟩ := List.mem_map.mp hx
  exact h r hr

/-- Every group total of a pointwise non-negative amount column is
non-negative. -/
theorem groupbySum_nonneg {ρ κ : Type} [DecidableEq κ] (key : ρ → κ)
    (amt : ρ → ℚ) (rows : List ρ) (h : ∀ r ∈ rows, 0 ≤ amt r) :
    ∀ p ∈ groupbySum key amt rows, 0 ≤ p.2 := by
  intro p hp
  rw [groupbySum_entry _ _ _ hp]
  exact sum_map_nonneg _ _ (fun r hr => h r (List.mem_of_mem_filter hr))

/-! ### Lemmas about the loaders' column handling -/

theorem mem_t3_cols_after_load (cols : List String) (c : String) :
    c ∈ t3_cols_after_load cols ↔ c ∈ cols ∨ c ∈ t3_numeric_cols := by
  simp only [t3_cols_after_load, List.mem_append, List.mem_filter,
    List.elem_eq_mem, Bool.not_eq_true', decide_eq_false_iff_not]
  by_cases h : c ∈ cols <;> simp [h]

theorem mem_t5_cols_after_load (cols : List String) (c : String) :
    c ∈ t5_cols_after_load cols ↔ c ∈ cols ∨ c ∈ t5_cols_to_clean := by
  simp only [t5_cols_after_load, List.mem_append, List.mem_filter,
    List.elem_eq_mem, Bool.not_eq_true', decide_eq_false_iff_not]
  by_cases h : c ∈ cols <;> simp [h]

/-- Whenever numerator and denominator are non-negative, test_05.py's
div-replace-fillna-clip combinator stays in `[0, 1]`. -/
theorem divFillClip_nonneg_le_one {num den : ℚ} (hn : 0 ≤ num) (hd : 0 ≤ den) :
    0 ≤ divFillClip num den ∧ divFillClip num den ≤ 1 := by
  unfold divFillClip
  split
  · exact ⟨le_refl 0, zero_le_one⟩
  · rename_i h
    have hdpos : 0 < den := lt_of_le_of_ne hd (Ne.symm h)
    exact ⟨le_min (div_nonneg hn hd) zero_le_one, min_le_right _ _⟩

/-! ### The claims -/

/-- C4: every declared numeric column of a loaders' result is complete.
The fillna-style loaders (adj.py lines 22-26, test_02.py lines 62-73,
test_03.py lines 99-108, test_05.py lines 35-41) keep every row and turn
each missing or unparseable cell into `0`, every other cell into its parsed
value; saving_fdr.py's dropna-style loader (lines 34-47) keeps exactly the
parsed cells.  Either way no missing value survives, so downstream sums,
means and groupbys act on complete numeric columns. -/
theorem C4_no_missing_after_cleaning (col : List RawCell) :
    ((fillnaColumn col).length = col.length
      ∧ ∀ x ∈ fillnaColumn col, some x ∈ col ∨ x = 0)
    ∧ ∀ x ∈ dropnaColumn col, some x ∈ col := by
  refine ⟨⟨List.length_map _ _, ?_⟩, ?_⟩
  · intro x hx
    rcases List.mem_map.mp hx with ⟨c, hc, rfl⟩
    cases c with
    | none => exact Or.inr rfl
    | some q => exact Or.inl (by simpa [fillna0] using hc)
  · intro x hx
    rcases List.mem_filterMap.mp hx with ⟨c, hc, hcx⟩
    cases c with
    | none => simp at hcx
    | some q =>
      obtain rfl : q = x := by simpa using hcx
      exact hc

/-- Witness for C4 at the column `[some 3, none]`. -/
theorem C4_witness :
    (some (3:ℚ) ∈ [some (3:ℚ), none] ∨ (3:ℚ) = 0)
    ∧ some (3:ℚ) ∈ [some (3:ℚ), none] :=
  ⟨(C4_no_missing_after_cleaning [some 3, none]).1.2 3 (by decide),
   (C4_no_missing_after_cleaning [some 3, none]).2 3 (by decide)⟩

/-- C5: top-N selection (`nlargest`, used by adj.py line 191, test_03.py
lines 772-774, test_05.py line 104) returns exactly `min n` (available
rows/groups) entries, in descending order of the selected metric — both
over a raw frame and over grouped totals. -/
theorem C5_topN_length_sorted {α ρ κ : Type} [DecidableEq κ] (n : ℕ)
    (sel : α → ℚ) (l : List α) (key : ρ → κ) (amt : ρ → ℚ) (rows : List ρ) :
    ((nlargest n sel l).length = min n l.length
      ∧ SortedDescBy sel (nlargest n sel l))
    ∧ ((nlargest n Prod.snd (groupbySum key amt rows)).length
          = min n (numGroups key rows)
      ∧ SortedDescBy Prod.snd (nlargest n Prod.snd (groupbySum key amt rows))) := by
  have hlen : ∀ (β : Type) (s : β → ℚ) (xs : List β),
      (nlargest n s xs).length = min n xs.length := by
    intro β s xs
    rw [nlargest, List.length_take, length_sortDesc]
  have hsort : ∀ (β : Type) (s : β → ℚ) (xs : List β),
      SortedDescBy s (nlargest n s xs) := by
    intro β s xs
    have h := sortedDescBy_sortDesc s xs
    rw [SortedDescBy] at h ⊢
    exact List.Pairwise.sublist (List.take_sublist _ _) h
  refine ⟨⟨hlen α sel l, hsort α sel l⟩, ⟨?_, hsort _ _ _⟩⟩
  rw [hlen]
  congr 1
  simp [groupbySum, numGroups]

/-- C6: for every cleaned dataset and grouping key, each group's aggregated
total is the sum of the amount column over exactly the rows of that group,
and the group totals add up to the column's grand total (adj.py lines 46-51,
test_03.py lines 874-889, saving_fdr.py line 134). -/
theorem C6_group_totals {ρ κ : Type} [DecidableEq κ] (key : ρ → κ)
    (amt : ρ → ℚ) (rows : List ρ) :
    (∀ p ∈ groupbySum key amt rows,
        p.2 = ((rows.filter (fun r => key r = p.1)).map amt).sum)
    ∧ ((groupbySum key amt rows).map Prod.snd).sum = (rows.map amt).sum :=
  ⟨fun _ hp => groupbySum_entry key amt rows hp, groupbySum_total key amt rows⟩

/-- Witness for C6 at the one-row dataset `[("A", 3)]`. -/
theorem C6_witness :
    ((("A", (3:ℚ)).2 : ℚ)
        = (([(("A":String), (3:ℚ))].filter
            (fun r => r.1 = ("A", (3:ℚ)).1)).map Prod.snd).sum)
    ∧ ((groupbySum Prod.fst Prod.snd [(("A":String), (3:ℚ))]).map Prod.snd).sum
        = ([(("A":String), (3:ℚ))].map Prod.snd).sum :=
  ⟨(C6_group_totals Prod.fst Prod.snd [("A", 3)]).1 ("A", 3)
      (by simp [groupbySum]),
   (C6_group_totals Prod.fst Prod.snd [("A", 3)]).2⟩

/-- C8: on the concrete dataset with branch A rows 100 and 200 and branch B
row 50, group-and-sum yields totals A ↦ 300, B ↦ 50, and top-1 by total is
exactly branch A with 300 (test_03.py lines 772-774). -/
theorem C8_concrete_grouping :
    branch_loan_ranking c8df = [("A", 300), ("B", 50)]
    ∧ nlargest 1 Prod.snd (branch_loan_ranking c8df) = [("A", 300)] := by
  have h1 : branch_loan_ranking c8df = [("A", (300:ℚ)), ("B", 50)] := by
    simp [branch_loan_ranking, groupbySum, c8df, mkT3Row]
    norm_num
  refine ⟨h1, ?_⟩
  rw [h1]
  simp [nlargest, sortDesc, insertDesc]
  norm_num

/-- C10: the three amounts of test_05.py's overall risk-composition pie
(lines 285-301) are clamped at zero, hence non-negative for every input
dataset, however inconsistent. -/
theorem C10_risk_pie_nonneg (df : List T5Row) :
    0 ≤ (risk_composition df).1 ∧ 0 ≤ (risk_composition df).2.1
    ∧ 0 ≤ (risk_composition df).2.2 := by
  dsimp only [risk_composition]
  refine ⟨?_, ?_, ?_⟩ <;>
    · split
      · exact le_refl 0
      · rename_i h
        exact le_of_not_lt h

/-- C9: when the sidebar filter of test_03.py selects no rows, the KPI
recomputation (lines 181-206) takes the `else` branch: every KPI is zero,
the top zone is the string "N/A", and no aggregate or `idxmax` is evaluated
over the empty selection (the result is `ok`, not an error). -/
theorem C9_empty_filter_kpis (df : List T3Row) (doms zones : List String)
    (h : t3_filter doms zones df = []) :
    recompute_kpis (t3_filter doms zones df) = Except.ok t3_zero_kpis := by
  rw [h]
  rfl

/-- Witness for C9: empty domain and zone selections over a one-row frame. -/
theorem C9_witness :
    recompute_kpis (t3_filter [] [] [t3SampleRow]) = Except.ok t3_zero_kpis :=
  C9_empty_filter_kpis [t3SampleRow] [] [] (by decide)

/-- C1 counterexample: on the empty frame adj.py's
`avg_per_member = grand_total / total_members` (line 42) divides by a zero
member total with no guard — the result is an undefined float (NaN,
modelled `none`), not zero, refuting the claim that every ratio is defined
to be zero on a zero denominator. -/
theorem C1_counterexample :
    avg_per_member (adj_load_data []) ≠ some 0
    ∧ avg_per_member (adj_load_data []) = none := by
  refine ⟨by decide, by decide⟩

/-- C1 amended: the guarded ratios — test_03.py's average loan per member
and overdue percentage (lines 145-146) and its outstanding/loan ratio per
domain/zone group (lines 819/826), test_05.py's overdue percent, collection
efficiency and bad-loan conversion (lines 47-58) — are zero when their
denominator is zero, but adj.py's per-member and per-branch averages
(lines 42-43) are unguarded and undefined there. -/
theorem C1_zero_guard_amended (df3 : List T3Row) (dfA : List AdjRow)
    (r : T5Row) (kf : T3Row → String)
    (h3m : t3_total_members df3 = 0)
    (h3o : t3_total_outstanding df3 = 0)
    (h3l : ∀ s ∈ df3, s.sepMonthLoan = 0)
    (hro : r.totalOutstanding = 0)
    (hrd : r.cummulativeLoanDisbursement = 0)
    (hrv : r.overdueLoanOutstanding = 0)
    (hAm : adj_total_members dfA = 0)
    (hAb : adj_total_branches dfA = 0) :
    avg_loan_per_member df3 = 0
    ∧ avg_overdue_ratio_pct df3 = 0
    ∧ (∀ p ∈ outstanding_loan_ratios kf df3, p.2 = 0)
    ∧ overdue_percent_branch r = 0
    ∧ collection_efficiency r = 0
    ∧ bad_loan_conversion_rate r = 0
    ∧ avg_per_member dfA = none
    ∧ avg_per_branch dfA = none := by
  refine ⟨?_, ?_, ?_, ?_, ?_, ?_, ?_, ?_⟩
  · simp [avg_loan_per_member, h3m]
  · simp [avg_overdue_ratio_pct, h3o]
  · intro p hp
    simp only [outstanding_loan_ratios, List.mem_map] at hp
    obtain ⟨k, hk, rfl⟩ := hp
    dsimp only
    have hml : ((df3.filter (fun s => kf s = k)).map (·.sepMonthLoan)).sum = 0 := by
      apply List.sum_eq_zero
      intro x hx
      obtain ⟨s, hs, rfl⟩ := List.mem_map.mp hx
      exact h3l s (List.mem_of_mem_filter hs)
    rw [hml]
    simp
  · simp [overdue_percent_branch, divFillClip, hro]
  · simp [collection_efficiency, divFillClip, hrd]
  · simp [bad_loan_conversion_rate, divFillClip, hrv]
  · simp [avg_per_member, pdDiv, hAm]
  · simp [avg_per_branch, pdDiv, hAb]

/-- Witness for the amended C1 at an all-zero test_03 row (grouped by
domain), an all-zero test_05 row and the empty adj.py frame. -/
theorem C1_witness :
    avg_loan_per_member [t3AllZeroRow] = 0
    ∧ avg_overdue_ratio_pct [t3AllZeroRow] = 0
    ∧ (("D", (0:ℚ)) : String × ℚ).2 = 0
    ∧ overdue_percent_branch t5ZeroRow = 0
    ∧ collection_efficiency t5ZeroRow = 0
    ∧ bad_loan_conversion_rate t5ZeroRow = 0
    ∧ avg_per_member [] = none
    ∧ avg_per_branch [] = none :=
  have h := C1_zero_guard_amended [t3AllZeroRow] [] t5ZeroRow (fun s => s.domain)
    (by simp [t3_total_members, t3AllZeroRow, mkT3Row])
    (by simp [t3_total_outstanding, t3AllZeroRow, mkT3Row])
    (by intro s hs; simp only [List.mem_singleton] at hs; simp [hs, t3AllZeroRow, mkT3Row])
    (by decide) (by decide) (by decide) (by decide) (by decide)
  ⟨h.1, h.2.1,
    h.2.2.1 ("D", 0) (by simp [outstanding_loan_ratios, t3AllZeroRow, mkT3Row]),
    h.2.2.2.1, h.2.2.2.2.1, h.2.2.2.2.2.1, h.2.2.2.2.2.2.1, h.2.2.2.2.2.2.2⟩

/-- C2 counterexample: test_03.py's zone `Overdue_Ratio` (line 891) is a
percentage and is not clipped: on a zone with non-negative overdue 200 and
zero-guarded positive outstanding 100 it evaluates to 200, outside `[0,1]`. -/
theorem C2_counterexample :
    zone_summary_ratios c2df = [("Z", 200)]
    ∧ ¬ ((200:ℚ) ≤ 1)
    ∧ ∀ s ∈ c2df, 0 ≤ s.totalOverdue ∧ 0 < s.totalOutstanding := by
  refine ⟨?_, by norm_num, by decide⟩
  simp [zone_summary_ratios, c2df, mkT3Row]

/-- C2 amended: test_05.py's clipped ratios do lie in `[0,1]` whenever
numerator and denominator are non-negative (the zero denominator is
guarded); test_03.py's zone overdue ratio is expressed in percent and
unclipped, for it only non-negativity holds. -/
theorem C2_ratio_range_amended (r : T5Row) (df : List T3Row)
    (h₁ : 0 ≤ r.overdueLoanOutstanding) (h₂ : 0 ≤ r.totalOutstanding)
    (h₃ : 0 ≤ r.cummulativeLoanCollection)
    (h₄ : 0 ≤ r.cummulativeLoanDisbursement)
    (h₅ : 0 ≤ r.badLoan365)
    (hdf : ∀ s ∈ df, 0 ≤ s.totalOverdue) :
    (0 ≤ overdue_percent_branch r ∧ overdue_percent_branch r ≤ 1)
    ∧ (0 ≤ collection_efficiency r ∧ collection_efficiency r ≤ 1)
    ∧ (0 ≤ bad_loan_conversion_rate r ∧ bad_loan_conversion_rate r ≤ 1)
    ∧ ∀ p ∈ zone_summary_ratios df, 0 ≤ p.2 := by
  refine ⟨divFillClip_nonneg_le_one h₁ h₂, divFillClip_nonneg_le_one h₃ h₄,
    divFillClip_nonneg_le_one h₅ h₁, ?_⟩
  intro p hp
  simp only [zone_summary_ratios, List.mem_map] at hp
  obtain ⟨z, hz, rfl⟩ := hp
  dsimp only
  split
  · rename_i hos
    have hod : 0 ≤ ((df.filter (fun s => s.zone = z)).map (·.totalOverdue)).sum := by
      apply List.sum_nonneg
      intro x hx
      obtain ⟨s, hs, rfl⟩ := List.mem_map.mp hx
      exact hdf s (List.mem_of_mem_filter hs)
    have := div_nonneg hod (le_of_lt hos)
    positivity
  · exact le_refl 0

/-- Witness for the amended C2 at an all-zero test_05 row and the concrete
one-zone frame. -/
theorem C2_witness :
    (0 ≤ overdue_percent_branch t5ZeroRow ∧ overdue_percent_branch t5ZeroRow ≤ 1)
    ∧ (0 ≤ collection_efficiency t5ZeroRow ∧ collection_efficiency t5ZeroRow ≤ 1)
    ∧ (0 ≤ bad_loan_conversion_rate t5ZeroRow ∧ bad_loan_conversion_rate t5ZeroRow ≤ 1)
    ∧ 0 ≤ ((("Z":String), (200:ℚ)) : String × ℚ).2 :=
  have h := C2_ratio_range_amended t5ZeroRow c2df (by decide) (by decide)
    (by decide) (by decide) (by decide) (by decide)
  ⟨h.1, h.2.1, h.2.2.1,
    h.2.2.2 ("Z", 200) (by simp [zone_summary_ratios, c2df, mkT3Row])⟩

/-- C3 counterexample: a CSV holding only the four categorical columns is
missing the expected numeric column `GS`, yet test_03.py proceeds to render:
`load_data` creates the column zero-filled (line 108), so the required-
columns check passes — refuting "there is no path on which a script
continues rendering with a required column absent". -/
theorem C3_counterexample :
    t3_run (some c3cols) = true
    ∧ "GS" ∈ t3_required_cols
    ∧ "GS" ∉ c3cols := by
  refine ⟨by decide, by decide, by decide⟩

/-- C3 amended: an absent input file halts every script — adj.py's bare
read crashes the render, test_02/test_03/test_05 catch the error and stop,
test_04 and saving_fdr stop on the resulting empty frame.  A missing
expected column halts test_02.py (its catch-all handler stops on any loader
error) and halts test_03.py exactly when a *categorical* column (`Domain`,
`Zone`, `Region`, `Branch Name`) is missing; but a declared numeric column
missing from test_03.py or test_05.py is silently created zero-filled and
rendering continues. -/
theorem C3_halt_behaviour_amended (cols : List String) :
    (t3_run none = false ∧ t2_run none = false ∧ t5_run none = false
      ∧ adj_run none = false ∧ t4_run none = false ∧ fdr_run none = false)
    ∧ t3_run (some cols) = t3_categorical_required.all (fun c => cols.contains c)
    ∧ (t2_run (some cols) = true ↔ ∀ c ∈ t2_loader_cols, c ∈ cols)
    ∧ t5_run (some cols) = true
    ∧ t5_cols_to_clean.all (fun c => (t5_cols_after_load cols).contains c) = true := by
  refine ⟨⟨rfl, rfl, rfl, rfl, rfl, rfl⟩, ?_,
    by simp [t2_run, List.all_eq_true, List.elem_eq_mem], rfl, ?_⟩
  · have hrun : t3_run (some cols) = (t3_missing_columns cols).isEmpty := by
      simp [t3_run, t3_halts]
    have h1 : (t3_missing_columns cols).isEmpty = true
        ↔ ∀ c ∈ t3_required_cols, c ∈ t3_cols_after_load cols := by
      rw [List.isEmpty_iff, t3_missing_columns, List.filter_eq_nil_iff]
      simp [List.elem_eq_mem]
    have h2 : t3_categorical_required.all (fun c => cols.contains c) = true
        ↔ ∀ c ∈ t3_categorical_required, c ∈ cols := by
      simp [List.all_eq_true, List.elem_eq_mem]
    have key : (∀ c ∈ t3_required_cols, c ∈ t3_cols_after_load cols)
        ↔ ∀ c ∈ t3_categorical_required, c ∈ cols := by
      constructor
      · intro h c hc
        simp only [t3_categorical_required, List.mem_cons,
          List.not_mem_nil, or_false] at hc
        have hmem : c ∈ cols ∨ c ∈ t3_numeric_cols := by
          rcases hc with rfl | rfl | rfl | rfl
          · exact (mem_t3_cols_after_load cols _).mp (h _ (by decide))
          · exact (mem_t3_cols_after_load cols _).mp (h _ (by decide))
          · exact (mem_t3_cols_after_load cols _).mp (h _ (by decide))
          · exact (mem_t3_cols_after_load cols _).mp (h _ (by decide))
        rcases hmem with h' | h'
        · exact h'
        · exfalso
          rcases hc with rfl | rfl | rfl | rfl <;> revert h' <;> decide
      · intro h c hc
        rw [mem_t3_cols_after_load]
        simp only [t3_required_cols, List.mem_cons,
          List.not_mem_nil, or_false] at hc
        rcases hc with rfl|rfl|rfl|rfl|rfl|rfl|rfl|rfl|rfl|rfl|rfl|rfl|rfl|rfl|rfl|rfl|rfl|rfl|rfl
        all_goals first
          | exact Or.inr (by decide)
          | exact Or.inl (h _ (by decide))
    rw [hrun, Bool.eq_iff_iff, h1, h2]
    exact key
  · rw [List.all_eq_true]
    intro c hc
    simp only [List.elem_eq_mem, decide_eq_true_eq]
    exact (mem_t5_cols_after_load cols c).mpr (Or.inr hc)

/-- C7 counterexample: the cleaning only replaces missing values by zero —
a parsed negative adjustment survives it, and the grand total and principal
total of a one-row frame are negative. -/
theorem C7_counterexample :
    adj_grand_total (adj_load_data [adjNegRow]) < 0
    ∧ adj_total_principal (adj_load_data [adjNegRow]) < 0 := by
  constructor <;>
    simp [adj_grand_total, adj_total_principal, adj_load_data,
      adj_clean_row, adjNegRow, fillna0]

/-- C7 amended: when every parsed numeric cell of the raw frames is
non-negative (missing cells count as zero or their row is dropped), every
monetary sum computed afterwards is non-negative — adj.py's member,
principal, service and grand totals and its divisional group totals,
test_02.py's loan, outstanding, insurance and due totals and its
divisional-office group totals, and saving_fdr.py's deposited grand total
and zone group totals. -/
theorem C7_nonneg_sums_amended (raw : List AdjRawRow) (raw2 : List T2RawRow)
    (rawF : List FdrRawRow)
    (h : ∀ r ∈ raw, 0 ≤ fillna0 r.numberOfMember
        ∧ 0 ≤ fillna0 r.adjustmentPrincipleAmount
        ∧ 0 ≤ fillna0 r.adjustmentServiceCharge
        ∧ 0 ≤ fillna0 r.adjustmentTotal)
    (h2 : ∀ r ∈ raw2, 0 ≤ fillna0 r.loanAmount
        ∧ 0 ≤ fillna0 r.outstandingPr
        ∧ 0 ≤ fillna0 r.insuranceAmount
        ∧ 0 ≤ fillna0 r.dueAmountPr)
    (hF : ∀ r ∈ rawF, 0 ≤ fillna0 r.depositedAmount) :
    (0 ≤ adj_total_members (adj_load_data raw)
      ∧ 0 ≤ adj_total_principal (adj_load_data raw)
      ∧ 0 ≤ adj_total_service (adj_load_data raw)
      ∧ 0 ≤ adj_grand_total (adj_load_data raw)
      ∧ ∀ p ∈ div_summary_total (adj_load_data raw), 0 ≤ p.2)
    ∧ (0 ≤ sum_loan_amount (t2_load_data raw2)
      ∧ 0 ≤ sum_outstanding_pr (t2_load_data raw2)
      ∧ 0 ≤ sum_insurance_amount (t2_load_data raw2)
      ∧ 0 ≤ sum_due_amount_pr (t2_load_data raw2)
      ∧ (∀ p ∈ office_summary_loan (t2_load_data raw2), 0 ≤ p.2)
      ∧ ∀ p ∈ office_summary_outstanding (t2_load_data raw2), 0 ≤ p.2)
    ∧ (0 ≤ total_deposited_amount (fdr_load_data rawF)
      ∧ ∀ p ∈ df_zone (fdr_load_data rawF), 0 ≤ p.2) := by
  have hfields : ∀ rr ∈ adj_load_data raw,
      0 ≤ rr.numberOfMember ∧ 0 ≤ rr.adjustmentPrincipleAmount
      ∧ 0 ≤ rr.adjustmentServiceCharge ∧ 0 ≤ rr.adjustmentTotal := by
    intro rr hrr
    obtain ⟨r, hr, rfl⟩ := List.mem_map.mp hrr
    exact h r hr
  have hfields2 : ∀ rr ∈ t2_load_data raw2,
      0 ≤ rr.loanAmount ∧ 0 ≤ rr.outstandingPr
      ∧ 0 ≤ rr.insuranceAmount ∧ 0 ≤ rr.dueAmountPr := by
    intro rr hrr
    obtain ⟨r, hr, rfl⟩ := List.mem_map.mp hrr
    exact h2 r hr
  have hkept : ∀ rr ∈ fdr_load_data rawF, 0 ≤ rr.depositedAmount := by
    intro rr hrr
    simp only [fdr_load_data, List.mem_filterMap] at hrr
    obtain ⟨r, hr, hmk⟩ := hrr
    have hFr := hF r hr
    cases hc : r.depositedAmount with
    | none => rw [hc] at hmk; simp at hmk
    | some q =>
      rw [hc] at hFr hmk
      cases hd : r.datesOk with
      | false => rw [hd] at hmk; simp at hmk
      | true =>
        rw [hd] at hmk
        simp only [Option.some.injEq] at hmk
        rw [← hmk]
        simpa [fillna0] using hFr
  refine ⟨⟨?_, ?_, ?_, ?_, ?_⟩, ⟨?_, ?_, ?_, ?_, ?_, ?_⟩, ?_, ?_⟩
  · exact sum_map_nonneg _ _ (fun rr hrr => (hfields rr hrr).1)
  · exact sum_map_nonneg _ _ (fun rr hrr => (hfields rr hrr).2.1)
  · exact sum_map_nonneg _ _ (fun rr hrr => (hfields rr hrr).2.2.1)
  · exact sum_map_nonneg _ _ (fun rr hrr => (hfields rr hrr).2.2.2)
  · exact groupbySum_nonneg _ _ _ (fun rr hrr => (hfields rr hrr).2.2.2)
  · exact sum_map_nonneg _ _ (fun rr hrr => (hfields2 rr hrr).1)
  · exact sum_map_nonneg _ _ (fun rr hrr => (hfields2 rr hrr).2.1)
  · exact sum_map_nonneg _ _ (fun rr hrr => (hfields2 rr hrr).2.2.1)
  · exact sum_map_nonneg _ _ (fun rr hrr => (hfields2 rr hrr).2.2.2)
  · exact groupbySum_nonneg _ _ _ (fun rr hrr => (hfields2 rr hrr).1)
  · exact groupbySum_nonneg _ _ _ (fun rr hrr => (hfields2 rr hrr).2.1)
  · exact sum_map_nonneg _ _ hkept
  · exact groupbySum_nonneg _ _ _ hkept

/-- Witness for the amended C7 at one-row frames with non-negative parses
(one adj cell missing), instantiating each group-total clause at the
concrete group it produces. -/
theorem C7_witness :
    (0 ≤ adj_total_members (adj_load_data [adjPosRow])
      ∧ 0 ≤ adj_total_principal (adj_load_data [adjPosRow])
      ∧ 0 ≤ adj_total_service (adj_load_data [adjPosRow])
      ∧ 0 ≤ adj_grand_total (adj_load_data [adjPosRow])
      ∧ 0 ≤ ((("D1":String), (3:ℚ)) : String × ℚ).2)
    ∧ (0 ≤ sum_loan_amount (t2_load_data [t2PosRow])
      ∧ 0 ≤ sum_outstanding_pr (t2_load_data [t2PosRow])
      ∧ 0 ≤ sum_insurance_amount (t2_load_data [t2PosRow])
      ∧ 0 ≤ sum_due_amount_pr (t2_load_data [t2PosRow])
      ∧ 0 ≤ ((("O1":String), (100:ℚ)) : String × ℚ).2
      ∧ 0 ≤ ((("O1":String), (40:ℚ)) : String × ℚ).2)
    ∧ (0 ≤ total_deposited_amount (fdr_load_data [fdrPosRow])
      ∧ 0 ≤ ((("Z1":String), (7:ℚ)) : String × ℚ).2) :=
  have h := C7_nonneg_sums_amended [adjPosRow] [t2PosRow] [fdrPosRow]
    (by decide) (by decide) (by decide)
  ⟨⟨h.1.1, h.1.2.1, h.1.2.2.1, h.1.2.2.2.1,
    h.1.2.2.2.2 ("D1", 3)
      (by simp [div_summary_total, groupbySum, adj_load_data, adj_clean_row,
        adjPosRow, fillna0])⟩,
   ⟨h.2.1.1, h.2.1.2.1, h.2.1.2.2.1, h.2.1.2.2.2.1,
    h.2.1.2.2.2.2.1 ("O1", 100)
      (by simp [office_summary_loan, groupbySum, t2_load_data, t2_clean_row,
        t2PosRow, fillna0]),
    h.2.1.2.2.2.2.2 ("O1", 40)
      (by simp [office_summary_outstanding, groupbySum, t2_load_data,
        t2_clean_row, t2PosRow, fillna0])⟩,
   h.2.2.1,
   h.2.2.2 ("Z1", 7)
     (by simp [df_zone, groupbySum, fdr_load_data, fdrPosRow])⟩

end Spec2Proof
